import Mathlib

/-!
Shallow embedding of the declaration layer of the Carbon executable-semantics
AST (executable_semantics/ast/declaration.cpp): the six declaration variants,
their textual rendering (Print / PrintID), the FunctionDeclaration::Create
validating constructor, and the GetName projection.

External collaborators (Expression, Pattern, Block printers; SourceLocation;
the Arena) are modelled at their interface boundary: sub-expressions and
sub-patterns appear as their rendered text, the arena as the list of
FunctionDeclaration nodes it has allocated.
-/

namespace Carbon

/-- Rendered text of an expression, as produced by the external expression
printer. -/
abbrev ExpressionText := String

/-- Rendered text of a pattern, as produced by the external pattern printer. -/
abbrev PatternText := String

/-- Source locations are opaque in this layer; only equality matters. -/
abbrev SourceLocation := Nat

/-- A generic binding: a name plus a constraint/type expression. -/
structure GenericBinding where
  name : String
  type : ExpressionText
deriving DecidableEq, Repr

/-- A plain binding pattern: its name, and its rendered form (the pattern
printer is an external collaborator). -/
structure BindingPattern where
  name : String
  rendered : PatternText
deriving DecidableEq, Repr

/-- The AST-node kinds that can appear in a raw implicit-parameter list:
generic bindings, binding patterns, and every other node kind (the default
case of the switch in FunctionDeclaration::Create). -/
inductive AstNode where
  | genericBinding (gb : GenericBinding)
  | bindingPattern (bp : BindingPattern)
  | otherNode
deriving DecidableEq, Repr

def isGenericBindingNode : AstNode → Bool
  | .genericBinding _ => true
  | _ => false

def isBindingPatternNode : AstNode → Bool
  | .bindingPattern _ => true
  | _ => false

def asGenericBinding : AstNode → Option GenericBinding
  | .genericBinding gb => some gb
  | _ => none

def asBindingPattern : AstNode → Option BindingPattern
  | .bindingPattern bp => some bp
  | _ => none

/-- The tri-state return-term kind. -/
inductive ReturnKind where
  | Omitted
  | Auto
  | Expression
deriving DecidableEq, Repr

/-- ReturnTerm as laid out in the source: a kind tag and an optional type
expression (the CHECK in ReturnTerm::Print guards the Expression case). -/
structure ReturnTerm where
  kind : ReturnKind
  type_expression : Option ExpressionText
deriving DecidableEq, Repr

/-- ReturnTerm::Print. The result is none exactly when the CHECK on the
Expression case fires (an Expression-kind term with no type expression). -/
def ReturnTerm.Print (rt : ReturnTerm) : Option String :=
  match rt.kind with
  | .Omitted => some ""
  | .Auto => some "-> auto"
  | .Expression =>
    match rt.type_expression with
    | some e => some ("-> " ++ e)
    | none => none

/-- A CompilationError: source location plus message, as built by
CompilationError(source_loc) << message. -/
structure CompilationError where
  source_loc : SourceLocation
  message : String
deriving DecidableEq, Repr

/-- A validated FunctionDeclaration node. -/
structure FunctionDeclaration where
  source_loc : SourceLocation
  name : String
  deduced_parameters : List GenericBinding
  me_pattern : Option BindingPattern
  param_pattern : PatternText
  return_term : ReturnTerm
  body : Option String
deriving DecidableEq, Repr

/-- The arena, modelled as the list of FunctionDeclaration nodes it has
allocated (Create is the only allocation site in this translation unit). -/
abbrev Arena := List FunctionDeclaration

/-- The scan loop of FunctionDeclaration::Create: walk the raw
implicit-parameter list, collecting generic bindings in order into
resolved_params and accepting at most one binding pattern named "me" as the
me pattern; fail on anything else. -/
def resolveImplicitParams (source_loc : SourceLocation) :
    List AstNode → Option BindingPattern → List GenericBinding →
    Except CompilationError (List GenericBinding × Option BindingPattern)
  | [], me_pattern, resolved_params => .ok (resolved_params, me_pattern)
  | param :: rest, me_pattern, resolved_params =>
    match param with
    | .genericBinding gb =>
      resolveImplicitParams source_loc rest me_pattern (resolved_params ++ [gb])
    | .bindingPattern bp =>
      if me_pattern.isSome || bp.name != "me" then
        .error ⟨source_loc, "illegal binding pattern in implicit parameter list"⟩
      else
        resolveImplicitParams source_loc rest (some bp) resolved_params
    | .otherNode =>
      .error ⟨source_loc, "illegal AST node in implicit parameter list"⟩

/-- FunctionDeclaration::Create: validate the raw implicit-parameter list,
then (and only then) allocate the node in the arena. The returned arena is
unchanged on failure and extended by exactly the new node on success. -/
def FunctionDeclaration.Create (arena : Arena) (source_loc : SourceLocation)
    (name : String) (deduced_params : List AstNode)
    (me_pattern : Option BindingPattern) (param_pattern : PatternText)
    (return_term : ReturnTerm) (body : Option String) :
    Except CompilationError FunctionDeclaration × Arena :=
  match resolveImplicitParams source_loc deduced_params me_pattern [] with
  | .error e => (.error e, arena)
  | .ok (resolved_params, me) =>
    let fd : FunctionDeclaration :=
      ⟨source_loc, name, resolved_params, me, param_pattern, return_term, body⟩
    (.ok fd, arena ++ [fd])

/-- GenericBinding::Print. -/
def GenericBinding.Print (gb : GenericBinding) : String :=
  gb.name ++ ":! " ++ gb.type

/-- GenericBinding::PrintID. -/
def GenericBinding.PrintID (gb : GenericBinding) : String := gb.name

/-- FunctionDeclaration::PrintDepth. The depth argument only tunes the
external Block printer, whose output the body field already carries, so it is
not a parameter here. The result is none when printing the return term trips
its CHECK. -/
def FunctionDeclaration.PrintDepth (fd : FunctionDeclaration) : Option String :=
  (fd.return_term.Print).map fun ret =>
    "fn " ++ fd.name ++ " " ++
    (if fd.deduced_parameters.isEmpty then ""
     else "[" ++
       String.intercalate ", " (fd.deduced_parameters.map GenericBinding.Print)
       ++ "]") ++
    fd.param_pattern ++ ret ++
    (match fd.body with
     | some b => " \x7b\n" ++ b ++ "\n\x7d\n"
     | none => ";\n")

/-- One arm of a choice declaration: a name plus the rendered payload-type
signature. -/
structure AlternativeSignature where
  name : String
  signature : ExpressionText
deriving DecidableEq, Repr

/-- AlternativeSignature::Print. -/
def AlternativeSignature.Print (alt : AlternativeSignature) : String :=
  "alt " ++ alt.name ++ " " ++ alt.signature

/-- AlternativeSignature::PrintID. -/
def AlternativeSignature.PrintID (alt : AlternativeSignature) : String :=
  alt.name

/-- The two impl kinds. -/
inductive ImplKind where
  | InternalImpl
  | ExternalImpl
deriving DecidableEq, Repr

/-- The closed six-case declaration variant. Members are declarations again;
expressions and patterns appear as their rendered text. -/
inductive Declaration where
  | interfaceDecl (name : String) (members : List Declaration)
  | implDecl (impl_kind : ImplKind) (impl_type : ExpressionText)
      (interface : ExpressionText) (members : List Declaration)
  | functionDecl (fd : FunctionDeclaration)
  | classDecl (name : String) (type_params : Option PatternText)
      (members : List Declaration)
  | choiceDecl (name : String) (alternatives : List AlternativeSignature)
  | variableDecl (binding : BindingPattern)
      (initializer : Option ExpressionText)

/-- Declaration::PrintID: the one-line identity form. Faithful to the source,
including the missing space after the interface keyword. -/
def Declaration.PrintID : Declaration → String
  | .interfaceDecl name _ => "interface" ++ name
  | .implDecl impl_kind impl_type iface _ =>
    (match impl_kind with
     | .InternalImpl => ""
     | .ExternalImpl => "external ") ++
    "impl " ++ impl_type ++ " as " ++ iface
  | .functionDecl fd => "fn " ++ fd.name
  | .classDecl name _ _ => "class " ++ name
  | .choiceDecl name _ => "choice " ++ name
  | .variableDecl binding _ => "var " ++ binding.rendered

mutual

/-- Declaration::Print: the full form. The result is none exactly when some
reachable return term trips its CHECK. -/
def Declaration.Print : Declaration → Option String
  | .interfaceDecl name members =>
    (Declaration.printMembers members).map fun ms =>
      Declaration.PrintID (.interfaceDecl name members) ++ " \x7b\n" ++ ms ++
        "\x7d\n"
  | .implDecl impl_kind impl_type iface members =>
    (Declaration.printMembers members).map fun ms =>
      Declaration.PrintID (.implDecl impl_kind impl_type iface members) ++
        " \x7b\n" ++ ms ++ "\x7d\n"
  | .functionDecl fd => fd.PrintDepth
  | .classDecl name type_params members =>
    (Declaration.printMembers members).map fun ms =>
      Declaration.PrintID (.classDecl name type_params members) ++
        (match type_params with
         | some p => p
         | none => "") ++
        " \x7b\n" ++ ms ++ "\x7d\n"
  | .choiceDecl name alternatives =>
    some (Declaration.PrintID (.choiceDecl name alternatives) ++ " \x7b\n" ++
      String.join (alternatives.map fun alt => alt.Print ++ ";\n") ++ "\x7d\n")
  | .variableDecl binding initializer =>
    some (Declaration.PrintID (.variableDecl binding initializer) ++
      (match initializer with
       | some e => " = " ++ e
       | none => "") ++ ";\n")

/-- The member loops of Declaration::Print: each member's full form,
concatenated in order. -/
def Declaration.printMembers : List Declaration → Option String
  | [] => some ""
  | d :: ds =>
    match Declaration.Print d, Declaration.printMembers ds with
    | some s, some rest => some (s ++ rest)
    | _, _ => none

end

/-- GetName: the total name projection over the six cases. -/
def GetName : Declaration → Option String
  | .functionDecl fd => some fd.name
  | .classDecl name _ _ => some name
  | .choiceDecl name _ => some name
  | .interfaceDecl name _ => some name
  | .variableDecl binding _ => some binding.name
  | .implDecl _ _ _ _ => none

/-- Whether an Except value is an error. -/
def isError {ε α : Type} : Except ε α → Bool
  | .error _ => true
  | .ok _ => false

/-- The error condition as the specification states it, for comparison with
the Create scan: an implicit-parameter node that is neither a generic binding
nor a binding pattern; a binding pattern whose name is not me; or a
binding-pattern candidate offered while a self-binding is already in hand
(supplied up front, or as a second candidate in the list). -/
def specErrorCondition (me_pattern : Option BindingPattern)
    (l : List AstNode) : Prop :=
  (∃ x ∈ l, isGenericBindingNode x = false ∧ isBindingPatternNode x = false) ∨
  (∃ bp : BindingPattern, AstNode.bindingPattern bp ∈ l ∧ bp.name ≠ "me") ∨
  (me_pattern.isSome = true ∧ ∃ x ∈ l, isBindingPatternNode x = true) ∨
  2 ≤ l.countP isBindingPatternNode

theorem resolve_append_error (loc : SourceLocation) :
    ∀ (pre suf : List AstNode) (me : Option BindingPattern)
      (acc : List GenericBinding) (e : CompilationError),
      resolveImplicitParams loc pre me acc = .error e →
      resolveImplicitParams loc (pre ++ suf) me acc = .error e := by
  intro pre
  induction pre with
  | nil =>
    intro suf me acc e h
    simp [resolveImplicitParams] at h
  | cons p rest ih =>
    intro suf me acc e h
    cases p with
    | genericBinding gb =>
      simp only [List.cons_append, resolveImplicitParams] at h ⊢
      exact ih suf me (acc ++ [gb]) e h
    | bindingPattern bp =>
      simp only [List.cons_append, resolveImplicitParams] at h ⊢
      split at h
      next hc => rw [if_pos hc]; exact h
      next hc => rw [if_neg hc]; exact ih suf (some bp) acc e h
    | otherNode =>
      simp only [List.cons_append, resolveImplicitParams] at h ⊢
      exact h

theorem resolve_error_loc (loc : SourceLocation) :
    ∀ (l : List AstNode) (me : Option BindingPattern)
      (acc : List GenericBinding) (e : CompilationError),
      resolveImplicitParams loc l me acc = .error e → e.source_loc = loc := by
  intro l
  induction l with
  | nil =>
    intro me acc e h
    simp [resolveImplicitParams] at h
  | cons p rest ih =>
    intro me acc e h
    cases p with
    | genericBinding gb =>
      simp only [resolveImplicitParams] at h
      exact ih me (acc ++ [gb]) e h
    | bindingPattern bp =>
      simp only [resolveImplicitParams] at h
      split at h
      next => injection h with h2; subst h2; rfl
      next => exact ih (some bp) acc e h
    | otherNode =>
      simp only [resolveImplicitParams] at h
      injection h with h2
      subst h2
      rfl

theorem resolve_all_generic (loc : SourceLocation) :
    ∀ (l : List AstNode) (me : Option BindingPattern)
      (acc : List GenericBinding),
      (∀ x ∈ l, isGenericBindingNode x = true) →
      resolveImplicitParams loc l me acc =
        .ok (acc ++ l.filterMap asGenericBinding, me) := by
  intro l
  induction l with
  | nil =>
    intro me acc _
    simp [resolveImplicitParams]
  | cons p rest ih =>
    intro me acc h
    cases p with
    | genericBinding gb =>
      simp only [resolveImplicitParams]
      rw [ih me (acc ++ [gb]) (fun x hx => h x (List.mem_cons_of_mem _ hx))]
      simp [List.filterMap_cons, asGenericBinding]
    | bindingPattern bp =>
      have hgb := h _ (List.mem_cons_self _ _)
      simp [isGenericBindingNode] at hgb
    | otherNode =>
      have hgb := h _ (List.mem_cons_self _ _)
      simp [isGenericBindingNode] at hgb

theorem resolve_me_preserved (loc : SourceLocation) (b : BindingPattern) :
    ∀ (l : List AstNode) (acc res : List GenericBinding)
      (me2 : Option BindingPattern),
      resolveImplicitParams loc l (some b) acc = .ok (res, me2) →
      me2 = some b := by
  intro l
  induction l with
  | nil =>
    intro acc res me2 h
    simp [resolveImplicitParams] at h
    exact h.2.symm
  | cons p rest ih =>
    intro acc res me2 h
    cases p with
    | genericBinding gb =>
      simp only [resolveImplicitParams] at h
      exact ih (acc ++ [gb]) res me2 h
    | bindingPattern bp =>
      simp [resolveImplicitParams] at h
    | otherNode =>
      simp [resolveImplicitParams] at h

theorem resolve_valid_ok (loc : SourceLocation) :
    ∀ (l : List AstNode) (acc : List GenericBinding),
      (∀ x ∈ l, isGenericBindingNode x = true ∨ isBindingPatternNode x = true) →
      (∀ bp : BindingPattern, AstNode.bindingPattern bp ∈ l → bp.name = "me") →
      l.countP isBindingPatternNode ≤ 1 →
      resolveImplicitParams loc l none acc =
        .ok (acc ++ l.filterMap asGenericBinding,
             l.findSome? asBindingPattern) := by
  intro l
  induction l with
  | nil =>
    intro acc _ _ _
    simp [resolveImplicitParams]
  | cons p rest ih =>
    intro acc h1 h2 h3
    cases p with
    | genericBinding gb =>
      simp only [resolveImplicitParams]
      rw [ih (acc ++ [gb]) (fun x hx => h1 x (List.mem_cons_of_mem _ hx))
        (fun bp hbp => h2 bp (List.mem_cons_of_mem _ hbp))
        (by simpa [List.countP_cons, isBindingPatternNode] using h3)]
      simp [List.filterMap_cons, asGenericBinding, List.findSome?,
        asBindingPattern]
    | bindingPattern bp =>
      have hname : bp.name = "me" := h2 bp (List.mem_cons_self _ _)
      have hrest : ∀ x ∈ rest, isGenericBindingNode x = true := by
        intro x hx
        have hcnt : rest.countP isBindingPatternNode = 0 := by
          have h4 : (AstNode.bindingPattern bp :: rest).countP
              isBindingPatternNode =
              rest.countP isBindingPatternNode + 1 := by
            rw [List.countP_cons]
            norm_num [isBindingPatternNode]
          omega
        have hnb := List.countP_eq_zero.mp hcnt x hx
        rcases h1 x (List.mem_cons_of_mem _ hx) with h | h
        · exact h
        · exact absurd h hnb
      simp only [resolveImplicitParams]
      rw [if_neg (by simp [hname])]
      rw [resolve_all_generic loc rest (some bp) acc hrest]
      simp [List.filterMap_cons, asGenericBinding, List.findSome?,
        asBindingPattern]
    | otherNode =>
      rcases h1 _ (List.mem_cons_self _ _) with h | h <;>
        simp [isGenericBindingNode, isBindingPatternNode] at h

theorem specCond_cons_gb (me : Option BindingPattern) (gb : GenericBinding)
    (rest : List AstNode) :
    specErrorCondition me (.genericBinding gb :: rest) ↔
      specErrorCondition me rest := by
  unfold specErrorCondition
  simp [List.mem_cons, List.countP_cons, isGenericBindingNode,
    isBindingPatternNode]

theorem specCond_cons_bp_me (bp : BindingPattern) (rest : List AstNode)
    (hname : bp.name = "me") :
    specErrorCondition none (.bindingPattern bp :: rest) ↔
      specErrorCondition (some bp) rest := by
  have hhead : (AstNode.bindingPattern bp :: rest).countP
      isBindingPatternNode = rest.countP isBindingPatternNode + 1 := by
    rw [List.countP_cons]
    norm_num [isBindingPatternNode]
  have hpos : (∃ x ∈ rest, isBindingPatternNode x = true) ↔
      1 ≤ rest.countP isBindingPatternNode := by
    rw [← List.countP_pos_iff]
    omega
  unfold specErrorCondition
  rw [hhead]
  simp only [List.mem_cons, Option.isSome_none, Option.isSome_some,
    Bool.false_eq_true, false_and, false_or, eq_self_iff_true, true_and]
  constructor
  · rintro (⟨x, hx, hgx, hbx⟩ | ⟨bp2, hbp2, hne⟩ | hcnt)
    · rcases hx with rfl | hx
      · simp [isBindingPatternNode] at hbx
      · exact Or.inl ⟨x, hx, hgx, hbx⟩
    · rcases hbp2 with heq | hbp2
      · injection heq with h2
        subst h2
        exact absurd hname hne
      · exact Or.inr (Or.inl ⟨bp2, hbp2, hne⟩)
    · exact Or.inr (Or.inr (Or.inl (hpos.mpr (by omega))))
  · rintro (⟨x, hx, hgx, hbx⟩ | ⟨bp2, hbp2, hne⟩ | hex | hcnt)
    · exact Or.inl ⟨x, Or.inr hx, hgx, hbx⟩
    · exact Or.inr (Or.inl ⟨bp2, Or.inr hbp2, hne⟩)
    · have := hpos.mp hex
      exact Or.inr (Or.inr (by omega))
    · exact Or.inr (Or.inr (by omega))

theorem resolve_isError_iff (loc : SourceLocation) :
    ∀ (l : List AstNode) (me : Option BindingPattern)
      (acc : List GenericBinding),
      isError (resolveImplicitParams loc l me acc) = true ↔
        specErrorCondition me l := by
  intro l
  induction l with
  | nil =>
    intro me acc
    unfold specErrorCondition
    simp [resolveImplicitParams, isError]
  | cons p rest ih =>
    intro me acc
    cases p with
    | genericBinding gb =>
      simp only [resolveImplicitParams]
      rw [ih, specCond_cons_gb]
    | otherNode =>
      simp only [resolveImplicitParams]
      exact iff_of_true rfl
        (Or.inl ⟨AstNode.otherNode, List.mem_cons_self _ _, rfl, rfl⟩)
    | bindingPattern bp =>
      simp only [resolveImplicitParams]
      by_cases hme : me.isSome = true
      · rw [if_pos (by simp [hme])]
        exact iff_of_true rfl
          (Or.inr (Or.inr (Or.inl
            ⟨hme, AstNode.bindingPattern bp, List.mem_cons_self _ _, rfl⟩)))
      · have hmeN : me = none := by
          cases me
          · rfl
          · simp at hme
        subst hmeN
        by_cases hname : bp.name = "me"
        · rw [if_neg (by simp [hname])]
          rw [ih]
          exact (specCond_cons_bp_me bp rest hname).symm
        · rw [if_pos (by simp [hname])]
          exact iff_of_true rfl
            (Or.inr (Or.inl ⟨bp, List.mem_cons_self _ _, hname⟩))

theorem create_eq_of_resolve_error (arena : Arena) (loc : SourceLocation)
    (name : String) (l : List AstNode) (me : Option BindingPattern)
    (pp : PatternText) (rt : ReturnTerm) (body : Option String)
    (e : CompilationError)
    (h : resolveImplicitParams loc l me [] = .error e) :
    FunctionDeclaration.Create arena loc name l me pp rt body =
      (.error e, arena) := by
  unfold FunctionDeclaration.Create
  rw [h]

theorem create_eq_of_resolve_ok (arena : Arena) (loc : SourceLocation)
    (name : String) (l : List AstNode) (me : Option BindingPattern)
    (pp : PatternText) (rt : ReturnTerm) (body : Option String)
    (res : List GenericBinding) (m : Option BindingPattern)
    (h : resolveImplicitParams loc l me [] = .ok (res, m)) :
    FunctionDeclaration.Create arena loc name l me pp rt body =
      (.ok ⟨loc, name, res, m, pp, rt, body⟩,
       arena ++ [⟨loc, name, res, m, pp, rt, body⟩]) := by
  unfold FunctionDeclaration.Create
  rw [h]

theorem create_isError (arena : Arena) (loc : SourceLocation) (name : String)
    (l : List AstNode) (me : Option BindingPattern) (pp : PatternText)
    (rt : ReturnTerm) (body : Option String) :
    isError (FunctionDeclaration.Create arena loc name l me pp rt body).1 =
      isError (resolveImplicitParams loc l me []) := by
  unfold FunctionDeclaration.Create
  rcases resolveImplicitParams loc l me [] with e | ⟨res, m⟩ <;> rfl

theorem create_error_eq (arena : Arena) (loc : SourceLocation) (name : String)
    (l : List AstNode) (me : Option BindingPattern) (pp : PatternText)
    (rt : ReturnTerm) (body : Option String) (e : CompilationError) :
    (FunctionDeclaration.Create arena loc name l me pp rt body).1 = .error e ↔
      resolveImplicitParams loc l me [] = .error e := by
  unfold FunctionDeclaration.Create
  rcases resolveImplicitParams loc l me [] with e2 | ⟨res, m⟩ <;> simp

/-- C1: with no self-binding supplied, a raw implicit-parameter list of
generic bindings and at most one binding pattern named me is accepted;
the deduced parameters are the generic bindings in order and the self-binding
is the me pattern when present, absent otherwise. -/
theorem create_accepts_valid_implicit_list (arena : Arena)
    (loc : SourceLocation) (name : String) (l : List AstNode)
    (pp : PatternText) (rt : ReturnTerm) (body : Option String)
    (h1 : ∀ x ∈ l, isGenericBindingNode x = true ∨ isBindingPatternNode x = true)
    (h2 : ∀ bp : BindingPattern, AstNode.bindingPattern bp ∈ l → bp.name = "me")
    (h3 : l.countP isBindingPatternNode ≤ 1) :
    FunctionDeclaration.Create arena loc name l none pp rt body =
      (.ok ⟨loc, name, l.filterMap asGenericBinding,
        l.findSome? asBindingPattern, pp, rt, body⟩,
       arena ++ [⟨loc, name, l.filterMap asGenericBinding,
        l.findSome? asBindingPattern, pp, rt, body⟩]) := by
  exact create_eq_of_resolve_ok arena loc name l none pp rt body
    (l.filterMap asGenericBinding) (l.findSome? asBindingPattern)
    (resolve_valid_ok loc l [] h1 h2 h3)

/-- Witness for C1 at a list of one generic binding followed by a binding
pattern named me. -/
theorem create_accepts_valid_implicit_list_witness :
    FunctionDeclaration.Create [] 0 "f"
      [AstNode.genericBinding ⟨"T", "Type"⟩,
       AstNode.bindingPattern ⟨"me", "me: Self"⟩] none "()"
      ⟨ReturnKind.Omitted, none⟩ none =
      (.ok ⟨0, "f",
        List.filterMap asGenericBinding
          [AstNode.genericBinding ⟨"T", "Type"⟩,
           AstNode.bindingPattern ⟨"me", "me: Self"⟩],
        List.findSome? asBindingPattern
          [AstNode.genericBinding ⟨"T", "Type"⟩,
           AstNode.bindingPattern ⟨"me", "me: Self"⟩],
        "()", ⟨ReturnKind.Omitted, none⟩, none⟩,
       [] ++ [⟨0, "f",
        List.filterMap asGenericBinding
          [AstNode.genericBinding ⟨"T", "Type"⟩,
           AstNode.bindingPattern ⟨"me", "me: Self"⟩],
        List.findSome? asBindingPattern
          [AstNode.genericBinding ⟨"T", "Type"⟩,
           AstNode.bindingPattern ⟨"me", "me: Self"⟩],
        "()", ⟨ReturnKind.Omitted, none⟩, none⟩]) := by
  exact create_accepts_valid_implicit_list [] 0 "f"
    [AstNode.genericBinding ⟨"T", "Type"⟩,
     AstNode.bindingPattern ⟨"me", "me: Self"⟩] "()"
    ⟨ReturnKind.Omitted, none⟩ none (by decide)
    (by
      intro bp h
      simp at h
      subst h
      rfl)
    (by decide)

/-- C2: Create fails exactly when the list holds a node that is neither a
generic binding nor a binding pattern, a binding pattern not named me, or a
binding-pattern candidate while a self-binding is already in hand; every
error carries the declaration source location. -/
theorem create_error_iff_spec_condition (arena : Arena)
    (loc : SourceLocation) (name : String) (l : List AstNode)
    (me : Option BindingPattern) (pp : PatternText) (rt : ReturnTerm)
    (body : Option String) :
    (isError (FunctionDeclaration.Create arena loc name l me pp rt body).1 =
        true ↔ specErrorCondition me l) ∧
    (∀ e, (FunctionDeclaration.Create arena loc name l me pp rt body).1 =
        .error e → e.source_loc = loc) := by
  constructor
  · rw [create_isError, resolve_isError_iff]
  · intro e he
    exact resolve_error_loc loc l me [] e
      ((create_error_eq arena loc name l me pp rt body e).mp he)

/-- Witness for C2 at the singleton list holding an unsupported node. -/
theorem create_error_iff_spec_condition_witness :
    isError (FunctionDeclaration.Create [] 3 "f" [AstNode.otherNode] none "()"
      ⟨ReturnKind.Omitted, none⟩ none).1 = true ∧
    CompilationError.source_loc
      ⟨3, "illegal AST node in implicit parameter list"⟩ = 3 := by
  constructor
  · exact (create_error_iff_spec_condition [] 3 "f" [AstNode.otherNode] none
      "()" ⟨ReturnKind.Omitted, none⟩ none).1.mpr
      (Or.inl ⟨AstNode.otherNode, List.mem_cons_self _ _, rfl, rfl⟩)
  · exact (create_error_iff_spec_condition [] 3 "f" [AstNode.otherNode] none
      "()" ⟨ReturnKind.Omitted, none⟩ none).2
      ⟨3, "illegal AST node in implicit parameter list"⟩ rfl

/-- C3: Create is fail-fast and atomic: an error on a prefix settles the
outcome whatever follows it, a failing call leaves the arena untouched, and a
successful call allocates exactly the returned node. -/
theorem create_fail_fast_and_atomic (arena : Arena) (loc : SourceLocation)
    (name : String) (pre suf : List AstNode) (me : Option BindingPattern)
    (pp : PatternText) (rt : ReturnTerm) (body : Option String) :
    (∀ e, resolveImplicitParams loc pre me [] = .error e →
      FunctionDeclaration.Create arena loc name (pre ++ suf) me pp rt body =
        (.error e, arena)) ∧
    (∀ e, (FunctionDeclaration.Create arena loc name pre me pp rt body).1 =
        .error e →
      (FunctionDeclaration.Create arena loc name pre me pp rt body).2 =
        arena) ∧
    (∀ fd, (FunctionDeclaration.Create arena loc name pre me pp rt body).1 =
        .ok fd →
      (FunctionDeclaration.Create arena loc name pre me pp rt body).2 =
        arena ++ [fd]) := by
  refine ⟨?_, ?_, ?_⟩
  · intro e he
    exact create_eq_of_resolve_error arena loc name (pre ++ suf) me pp rt body
      e (resolve_append_error loc pre suf me [] e he)
  · intro e he
    rw [create_eq_of_resolve_error arena loc name pre me pp rt body e
      ((create_error_eq arena loc name pre me pp rt body e).mp he)]
  · intro fd hfd
    cases hres : resolveImplicitParams loc pre me [] with
    | error e =>
      rw [create_eq_of_resolve_error arena loc name pre me pp rt body e hres]
        at hfd
      simp at hfd
    | ok v =>
      obtain ⟨res, m⟩ := v
      rw [create_eq_of_resolve_ok arena loc name pre me pp rt body res m hres]
        at hfd ⊢
      injection hfd with h
      rw [← h]

/-- Witness for C3: an unsupported node followed by a generic binding fails
with the same error as the unsupported node alone and leaves the arena empty;
the empty list succeeds and allocates exactly the new node. -/
theorem create_fail_fast_and_atomic_witness :
    FunctionDeclaration.Create [] 5 "f"
      ([AstNode.otherNode] ++ [AstNode.genericBinding ⟨"T", "Type"⟩]) none
      "()" ⟨ReturnKind.Omitted, none⟩ none =
      (.error ⟨5, "illegal AST node in implicit parameter list"⟩, []) ∧
    (FunctionDeclaration.Create [] 5 "f" [AstNode.otherNode] none "()"
      ⟨ReturnKind.Omitted, none⟩ none).2 = [] ∧
    (FunctionDeclaration.Create [] 5 "f" [] none "()"
      ⟨ReturnKind.Omitted, none⟩ none).2 =
      [] ++ [⟨5, "f", [], none, "()", ⟨ReturnKind.Omitted, none⟩, none⟩] := by
  refine ⟨?_, ?_, ?_⟩
  · exact (create_fail_fast_and_atomic [] 5 "f" [AstNode.otherNode]
      [AstNode.genericBinding ⟨"T", "Type"⟩] none "()"
      ⟨ReturnKind.Omitted, none⟩ none).1
      ⟨5, "illegal AST node in implicit parameter list"⟩ rfl
  · exact (create_fail_fast_and_atomic [] 5 "f" [AstNode.otherNode] [] none
      "()" ⟨ReturnKind.Omitted, none⟩ none).2.1
      ⟨5, "illegal AST node in implicit parameter list"⟩ rfl
  · exact (create_fail_fast_and_atomic [] 5 "f" [] [] none "()"
      ⟨ReturnKind.Omitted, none⟩ none).2.2
      ⟨5, "f", [], none, "()", ⟨ReturnKind.Omitted, none⟩, none⟩ rfl

/-- C10: with a self-binding already supplied as the optional argument, any
binding pattern in the raw list, whatever its name, makes construction fail,
and on success the self-binding is the supplied one. -/
theorem create_with_supplied_self_binding (arena : Arena)
    (loc : SourceLocation) (name : String) (l : List AstNode)
    (b : BindingPattern) (pp : PatternText) (rt : ReturnTerm)
    (body : Option String) :
    ((∃ x ∈ l, isBindingPatternNode x = true) →
      isError
        (FunctionDeclaration.Create arena loc name l (some b) pp rt body).1 =
        true) ∧
    (∀ fd,
      (FunctionDeclaration.Create arena loc name l (some b) pp rt body).1 =
        .ok fd → fd.me_pattern = some b) := by
  constructor
  · intro hex
    rw [create_isError, resolve_isError_iff]
    exact Or.inr (Or.inr (Or.inl ⟨rfl, hex⟩))
  · intro fd hfd
    cases hres : resolveImplicitParams loc l (some b) [] with
    | error e =>
      rw [create_eq_of_resolve_error arena loc name l (some b) pp rt body e
        hres] at hfd
      simp at hfd
    | ok v =>
      obtain ⟨res, m⟩ := v
      have hm := resolve_me_preserved loc b l [] res m hres
      rw [create_eq_of_resolve_ok arena loc name l (some b) pp rt body res m
        hres] at hfd
      injection hfd with h
      rw [← h]
      simpa using hm

/-- Witness for C10: a binding pattern named me in the list fails when a
self-binding was already supplied, and a pure generic-binding list succeeds
with the supplied self-binding kept. -/
theorem create_with_supplied_self_binding_witness :
    isError (FunctionDeclaration.Create [] 1 "f"
      [AstNode.bindingPattern ⟨"me", "me: Self"⟩]
      (some ⟨"self", "self: Self"⟩) "()"
      ⟨ReturnKind.Omitted, none⟩ none).1 = true ∧
    FunctionDeclaration.me_pattern
      ⟨1, "f", [⟨"T", "Type"⟩], some ⟨"self", "self: Self"⟩, "()",
       ⟨ReturnKind.Omitted, none⟩, none⟩ = some ⟨"self", "self: Self"⟩ := by
  constructor
  · exact (create_with_supplied_self_binding [] 1 "f"
      [AstNode.bindingPattern ⟨"me", "me: Self"⟩] ⟨"self", "self: Self"⟩ "()"
      ⟨ReturnKind.Omitted, none⟩ none).1
      ⟨AstNode.bindingPattern ⟨"me", "me: Self"⟩, List.mem_cons_self _ _, rfl⟩
  · exact (create_with_supplied_self_binding [] 1 "f"
      [AstNode.genericBinding ⟨"T", "Type"⟩] ⟨"self", "self: Self"⟩ "()"
      ⟨ReturnKind.Omitted, none⟩ none).2
      ⟨1, "f", [⟨"T", "Type"⟩], some ⟨"self", "self: Self"⟩, "()",
       ⟨ReturnKind.Omitted, none⟩, none⟩ rfl

/-- C7: GetName is total over all six declaration variants; every variant
except ImplDeclaration yields its declared name (VariableDeclaration via its
binding), and ImplDeclaration always yields none. -/
theorem getName_total :
    (∀ (name : String) (members : List Declaration),
      GetName (.interfaceDecl name members) = some name) ∧
    (∀ fd : FunctionDeclaration, GetName (.functionDecl fd) = some fd.name) ∧
    (∀ (name : String) (tp : Option PatternText) (members : List Declaration),
      GetName (.classDecl name tp members) = some name) ∧
    (∀ (name : String) (alts : List AlternativeSignature),
      GetName (.choiceDecl name alts) = some name) ∧
    (∀ (binding : BindingPattern) (init : Option ExpressionText),
      GetName (.variableDecl binding init) = some binding.name) ∧
    (∀ (k : ImplKind) (t i : ExpressionText) (members : List Declaration),
      GetName (.implDecl k t i members) = none) :=
  ⟨fun _ _ => rfl, fun _ => rfl, fun _ _ _ => rfl, fun _ _ => rfl,
   fun _ _ => rfl, fun _ _ _ _ => rfl⟩

/-- C8: ReturnTerm::Print emits nothing for Omitted, the auto arrow for Auto,
and the arrow plus type expression for Expression; under the invariant that an
Expression-kind term carries a type expression, the CHECK never fires and
Print is total. -/
theorem returnTerm_print_total (rt : ReturnTerm)
    (hinv : rt.kind = ReturnKind.Expression → rt.type_expression.isSome = true) :
    (ReturnTerm.Print rt).isSome = true ∧
    (rt.kind = ReturnKind.Omitted → ReturnTerm.Print rt = some "") ∧
    (rt.kind = ReturnKind.Auto → ReturnTerm.Print rt = some "-> auto") ∧
    (∀ e, rt.kind = ReturnKind.Expression → rt.type_expression = some e →
      ReturnTerm.Print rt = some ("-> " ++ e)) := by
  obtain ⟨k, te⟩ := rt
  cases k with
  | Omitted => simp [ReturnTerm.Print]
  | Auto => simp [ReturnTerm.Print]
  | Expression =>
    have h := hinv rfl
    cases te with
    | none => simp at h
    | some e => simp [ReturnTerm.Print]

/-- Witness for C8 at the Expression-kind term carrying type expression
Int. -/
theorem returnTerm_print_total_witness :
    (ReturnTerm.Print ⟨ReturnKind.Expression, some "Int"⟩).isSome = true ∧
    ReturnTerm.Print ⟨ReturnKind.Expression, some "Int"⟩ = some "-> Int" := by
  have h := returnTerm_print_total ⟨ReturnKind.Expression, some "Int"⟩
    (fun _ => rfl)
  exact ⟨h.1, h.2.2.2 "Int" rfl rfl⟩

/-- C4: the code prints the interface keyword with no space before the name:
PrintID of an interface named Foo is the single token interfaceFoo, and Print
wraps that identity form in the braced member block. Every sibling case of
the same switch writes a trailing space after its keyword, so this contradicts
the specified form with a separating space. -/
theorem interface_printid_missing_space :
    Declaration.PrintID (.interfaceDecl "Foo" []) = "interfaceFoo" ∧
    Declaration.Print (.interfaceDecl "Foo" []) =
      some "interfaceFoo \x7b\n\x7d\n" :=
  ⟨rfl, rfl⟩

/-- Counterexample for C5: on the choice declaration Shape with alternatives
Circle and Square, both with signature text (Float), Print does not yield the
claimed bytes with the alternative name butted against its signature. -/
theorem choice_print_scenario_ne_claimed :
    Declaration.Print (.choiceDecl "Shape"
      [⟨"Circle", "(Float)"⟩, ⟨"Square", "(Float)"⟩]) ≠
    some "choice Shape \x7b\nalt Circle(Float);\nalt Square(Float);\n\x7d\n" := by
  decide

/-- Amended C5: AlternativeSignature::Print writes a space between the
alternative name and its signature, so the choice Shape scenario prints with
alt Circle (Float) and alt Square (Float). -/
theorem choice_print_scenario_actual :
    Declaration.Print (.choiceDecl "Shape"
      [⟨"Circle", "(Float)"⟩, ⟨"Square", "(Float)"⟩]) =
    some "choice Shape \x7b\nalt Circle (Float);\nalt Square (Float);\n\x7d\n" := by
  decide

/-- C9: impl identity form is the impl keyword, the implemented-for type, as,
and the interface, prefixed by external exactly for the external-impl kind;
the full form wraps the identity in the braced concatenation of the members'
full forms. Includes concrete external and internal instances. -/
theorem impl_print_forms (impl_kind : ImplKind) (impl_type iface : ExpressionText)
    (members : List Declaration) :
    Declaration.PrintID (.implDecl impl_kind impl_type iface members) =
      (match impl_kind with
       | ImplKind.InternalImpl => ""
       | ImplKind.ExternalImpl => "external ") ++
      "impl " ++ impl_type ++ " as " ++ iface ∧
    Declaration.Print (.implDecl impl_kind impl_type iface members) =
      (Declaration.printMembers members).map (fun ms =>
        Declaration.PrintID (.implDecl impl_kind impl_type iface members) ++
          " \x7b\n" ++ ms ++ "\x7d\n") ∧
    Declaration.Print (.implDecl ImplKind.ExternalImpl "Vector" "Printable" []) =
      some "external impl Vector as Printable \x7b\n\x7d\n" ∧
    Declaration.PrintID (.implDecl ImplKind.InternalImpl "Vector" "Printable" []) =
      "impl Vector as Printable" :=
  ⟨rfl, rfl, rfl, rfl⟩

/-- C6: the two end-to-end function scenarios (return term omitted and
explicit Int), and the bracketed deduced-binding list appearing exactly when
the deduced-parameter list is non-empty. -/
theorem function_print_scenarios :
    Declaration.Print (.functionDecl
      ⟨0, "foo", [], none, "()", ⟨ReturnKind.Omitted, none⟩, none⟩) =
      some "fn foo ();\n" ∧
    Declaration.Print (.functionDecl
      ⟨0, "foo", [], none, "()", ⟨ReturnKind.Expression, some "Int"⟩, none⟩) =
      some "fn foo ()-> Int;\n" ∧
    (∀ fd : FunctionDeclaration, fd.deduced_parameters = [] →
      FunctionDeclaration.PrintDepth fd =
        (ReturnTerm.Print fd.return_term).map fun ret =>
          "fn " ++ fd.name ++ " " ++ fd.param_pattern ++ ret ++
          (match fd.body with
           | some b => " \x7b\n" ++ b ++ "\n\x7d\n"
           | none => ";\n")) ∧
    (∀ fd : FunctionDeclaration, fd.deduced_parameters ≠ [] →
      FunctionDeclaration.PrintDepth fd =
        (ReturnTerm.Print fd.return_term).map fun ret =>
          "fn " ++ fd.name ++ " " ++
          ("[" ++ String.intercalate ", "
              (fd.deduced_parameters.map GenericBinding.Print) ++ "]") ++
          fd.param_pattern ++ ret ++
          (match fd.body with
           | some b => " \x7b\n" ++ b ++ "\n\x7d\n"
           | none => ";\n")) := by
  refine ⟨rfl, rfl, ?_, ?_⟩
  · intro fd h
    obtain ⟨loc, name, dp, me, pp, rt, body⟩ := fd
    simp only at h
    subst h
    simp [FunctionDeclaration.PrintDepth]
  · intro fd h
    obtain ⟨loc, name, dp, me, pp, rt, body⟩ := fd
    simp only at h
    cases dp with
    | nil => exact absurd rfl h
    | cons a l => simp [FunctionDeclaration.PrintDepth]

/-- Witness for C6 at a function with no deduced parameters and one with a
single deduced parameter. -/
theorem function_print_scenarios_witness :
    FunctionDeclaration.PrintDepth
      ⟨0, "g", [], none, "()", ⟨ReturnKind.Auto, none⟩, none⟩ =
      some "fn g ()-> auto;\n" ∧
    FunctionDeclaration.PrintDepth
      ⟨0, "g", [⟨"T", "Type"⟩], none, "()", ⟨ReturnKind.Omitted, none⟩, none⟩ =
      some "fn g [T:! Type]();\n" := by
  constructor
  · exact function_print_scenarios.2.2.1
      ⟨0, "g", [], none, "()", ⟨ReturnKind.Auto, none⟩, none⟩ rfl
  · exact function_print_scenarios.2.2.2
      ⟨0, "g", [⟨"T", "Type"⟩], none, "()", ⟨ReturnKind.Omitted, none⟩, none⟩
      (by decide)

end Carbon
